import Mathlib

/-!
Shallow embedding of `src/license_report.py` (a Microsoft-Graph license
usage reporting script) and proofs of its specified properties.

The network-facing parts (authentication, the two Graph GET calls) are out
of scope of the verified claims; the embedding covers the pure computation:
`get_friendly_license_name`, `analyze_licenses`, the utilization cell
coloring of `create_excel_report`, and the aggregate/low-utilization
computations of `print_summary`.

Modelling choices:
- Python `int` fields that the data model declares nonnegative
  (`prepaidUnits.enabled`, `consumedUnits`) are `Nat`; the derived
  `available` is `Int` because the subtraction may go negative.
- Python `float` arithmetic on utilization percentages is modelled by
  exact rationals `ℚ`.
- `user.get('assignedLicenses', [])` is modelled by an
  `Option (List AssignedLicense)` field read with `Option.getD []`:
  `none` is a user record with no `assignedLicenses` key at all.
- Python's `/`, which raises `ZeroDivisionError` on a zero denominator,
  is modelled by `pydiv` returning `Except String ℚ`.
-/

namespace LicenseReport

/-- `prepaidUnits` object of a `subscribedSkus` record: only the `enabled`
field is read by the script. -/
structure PrepaidUnits where
  enabled : Nat
  deriving DecidableEq, Repr

/-- A license SKU record as returned by `GET /v1.0/subscribedSkus`
(the fields the script reads). -/
structure Sku where
  skuId : String
  skuPartNumber : String
  prepaidUnits : PrepaidUnits
  consumedUnits : Nat
  deriving DecidableEq, Repr

/-- One element of a user's `assignedLicenses` array: only `skuId` is read. -/
structure AssignedLicense where
  skuId : String
  deriving DecidableEq, Repr

/-- A user record as returned by `GET /v1.0/users?$select=...`.
`assignedLicenses = none` models a record with no such key, which the
script reads through `user.get('assignedLicenses', [])`. -/
structure User where
  displayName : String
  userPrincipalName : String
  assignedLicenses : Option (List AssignedLicense)
  deriving DecidableEq, Repr

/-- One entry of the `license_data` list built by `analyze_licenses`. -/
structure LicenseRow where
  license_name : String
  sku_code : String
  total_licenses : Nat
  assigned : Nat
  available : Int
  utilization_pct : ℚ
  users : List String
  deriving DecidableEq, Repr

/-- The `license_names` dict literal of `get_friendly_license_name`,
as an association list in source order. -/
def license_names : List (String × String) :=
  [("ENTERPRISEPACK", "Office 365 E3"),
   ("ENTERPRISEPREMIUM", "Office 365 E5"),
   ("SPE_E3", "Microsoft 365 E3"),
   ("SPE_E5", "Microsoft 365 E5"),
   ("STANDARDPACK", "Office 365 E1"),
   ("DESKLESSPACK", "Office 365 F3"),
   ("EXCHANGESTANDARD", "Exchange Online (Plan 1)"),
   ("EXCHANGEENTERPRISE", "Exchange Online (Plan 2)"),
   ("SHAREPOINTSTANDARD", "SharePoint Online (Plan 1)"),
   ("SHAREPOINTENTERPRISE", "SharePoint Online (Plan 2)"),
   ("POWER_BI_STANDARD", "Power BI (Free)"),
   ("POWER_BI_PRO", "Power BI Pro"),
   ("PROJECTPROFESSIONAL", "Project Plan 3"),
   ("VISIOCLIENT", "Visio Plan 2"),
   ("TEAMS_EXPLORATORY", "Microsoft Teams Exploratory"),
   ("FLOW_FREE", "Power Automate Free"),
   ("POWERAPPS_VIRAL", "Power Apps Trial")]

/-- `get_friendly_license_name`: `license_names.get(sku_part_number,
sku_part_number)` — table lookup with identity fallback. -/
def get_friendly_license_name (sku_part_number : String) : String :=
  match license_names.lookup sku_part_number with
  | some n => n
  | none => sku_part_number

/-- The per-user test of the inner loop of `analyze_licenses`:
`any(license['skuId'] == sku_id for license in user.get('assignedLicenses', []))`. -/
def hasLicense (sku_id : String) (user : User) : Bool :=
  (user.assignedLicenses.getD []).any (fun license => license.skuId == sku_id)

/-- The `users_with_license` list built for one SKU: display names of the
users passing `hasLicense`, in input order. -/
def usersWithLicense (sku_id : String) (users : List User) : List String :=
  (users.filter (hasLicense sku_id)).map User.displayName

/-- The dict appended to `license_data` for one SKU in `analyze_licenses`. -/
def analyzeSku (users : List User) (sku : Sku) : LicenseRow :=
  let enabled := sku.prepaidUnits.enabled
  let consumed := sku.consumedUnits
  { license_name := get_friendly_license_name sku.skuPartNumber
    sku_code := sku.skuPartNumber
    total_licenses := enabled
    assigned := consumed
    available := (enabled : Int) - (consumed : Int)
    utilization_pct := if enabled > 0 then (consumed : ℚ) / (enabled : ℚ) * 100 else 0
    users := usersWithLicense sku.skuId users }

/-- `analyze_licenses`: one `LicenseRow` per input SKU, in input order. -/
def analyze_licenses (skus : List Sku) (users : List User) : List LicenseRow :=
  skus.map (analyzeSku users)

/-- Fill colors used for the utilization column of the summary sheet
(`FFC7CE` = red, `FFEB9C` = yellow, `C6EFCE` = green). -/
inductive CellColor where
  | red
  | yellow
  | green
  deriving DecidableEq, Repr

/-- The utilization color coding of `create_excel_report`:
`if util_value < 50` red, `elif util_value < 80` yellow, `else` green. -/
def utilization_fill (util_value : ℚ) : CellColor :=
  if util_value < 50 then .red
  else if util_value < 80 then .yellow
  else .green

/-- `total_licenses = sum(lic['total_licenses'] for lic in license_data)`. -/
def total_licenses_sum (license_data : List LicenseRow) : Nat :=
  (license_data.map LicenseRow.total_licenses).sum

/-- `total_assigned = sum(lic['assigned'] for lic in license_data)`. -/
def total_assigned_sum (license_data : List LicenseRow) : Nat :=
  (license_data.map LicenseRow.assigned).sum

/-- `total_available = sum(lic['available'] for lic in license_data)`. -/
def total_available_sum (license_data : List LicenseRow) : Int :=
  (license_data.map LicenseRow.available).sum

/-- Python division: raises `ZeroDivisionError` when the denominator is 0,
otherwise yields the exact quotient. -/
def pydiv (a b : ℚ) : Except String ℚ :=
  if b = 0 then .error "ZeroDivisionError" else .ok (a / b)

/-- The overall-utilization expression of `print_summary`:
`total_assigned / total_licenses * 100`, with Python division semantics. -/
def overall_utilization (license_data : List LicenseRow) : Except String ℚ :=
  (pydiv (total_assigned_sum license_data : ℚ)
    (total_licenses_sum license_data : ℚ)).map (· * 100)

/-- The `low_util` filter of `print_summary`:
`lic['utilization_pct'] < 70 and lic['total_licenses'] > 0`. -/
def low_util (license_data : List LicenseRow) : List LicenseRow :=
  license_data.filter
    (fun lic => decide (lic.utilization_pct < 70) && decide (0 < lic.total_licenses))

/-- `sorted(low_util, key=lambda x: x['available'], reverse=True)`:
a stable sort, descending by `available`. -/
def low_util_sorted (license_data : List LicenseRow) : List LicenseRow :=
  (low_util license_data).mergeSort (fun a b => decide (b.available ≤ a.available))

end LicenseReport

namespace LicenseReport

/-- Auxiliary: a key absent from the table's key column looks up to `none`. -/
theorem lookup_eq_none_of_not_mem_keys {s : String} :
    ∀ l : List (String × String), s ∉ l.map Prod.fst → l.lookup s = none := by
  intro l
  induction l with
  | nil => intro _; rfl
  | cons p t ih =>
    intro h
    simp only [List.map_cons, List.mem_cons, not_or] at h
    simp [List.lookup, beq_eq_false_iff_ne.mpr h.1, ih h.2]

/-- Sample data for witnesses, following the end-to-end scenario of the spec:
one SKU `A` with code `SPE_E3`, 100 enabled, 40 consumed. -/
def skuA : Sku := ⟨"A", "SPE_E3", ⟨100⟩, 40⟩

/-- Sample SKU with zero enabled units. -/
def skuZero : Sku := ⟨"Z", "ZEROPACK", ⟨0⟩, 0⟩

/-- Sample SKU with more consumed than enabled units. -/
def skuOver : Sku := ⟨"V", "OVERPACK", ⟨5⟩, 9⟩

/-- Sample user holding SKU `A`. -/
def alice : User := ⟨"Alice", "alice@contoso.com", some [⟨"A"⟩]⟩

/-- Sample user with an empty assigned-license list. -/
def bob : User := ⟨"Bob", "bob@contoso.com", some []⟩

/-- Sample user record lacking the `assignedLicenses` field. -/
def carol : User := ⟨"Carol", "carol@contoso.com", none⟩

/-- Sample user sharing Alice's display name, holding SKU `A`. -/
def alice2 : User := ⟨"Alice", "alice.other@contoso.com", some [⟨"A"⟩]⟩

/-- Sample user whose assigned-license list contains SKU `A` twice. -/
def aliceDup : User := ⟨"Alice", "alice@contoso.com", some [⟨"A"⟩, ⟨"A"⟩]⟩

/-- C1: a name appears in the `i`-th report row's user list iff some input
user bears that name and that user's assigned-license set contains the
`i`-th SKU's id. -/
theorem C1_user_list_iff (skus : List Sku) (users : List User) (i : Nat)
    (h1 : i < (analyze_licenses skus users).length) (h2 : i < skus.length)
    (n : String) :
    n ∈ ((analyze_licenses skus users).get ⟨i, h1⟩).users ↔
      ∃ u ∈ users, u.displayName = n ∧
        ∃ l ∈ u.assignedLicenses.getD [], l.skuId = (skus.get ⟨i, h2⟩).skuId := by
  simp only [analyze_licenses, List.get_eq_getElem, List.getElem_map, analyzeSku,
    usersWithLicense, hasLicense, List.mem_map, List.mem_filter, List.any_eq_true,
    beq_iff_eq]
  constructor
  · rintro ⟨u, ⟨hu, l, hl, hls⟩, hn⟩
    exact ⟨u, hu, hn, l, hl, hls⟩
  · rintro ⟨u, hu, hn, l, hl, hls⟩
    exact ⟨u, ⟨hu, l, hl, hls⟩, hn⟩

theorem C1_witness :
    "Alice" ∈ ((analyze_licenses [skuA] [alice, bob]).get
        ⟨0, by simp [analyze_licenses]⟩).users :=
  (C1_user_list_iff [skuA] [alice, bob] 0 (by simp [analyze_licenses])
      (by simp) "Alice").mpr
    ⟨alice, by simp [alice], rfl, ⟨"A"⟩, by simp [alice], rfl⟩

/-- C2: utilization is 0 when enabled is 0, else consumed/enabled×100. -/
theorem C2_utilization (users : List User) (sku : Sku) :
    (sku.prepaidUnits.enabled = 0 → (analyzeSku users sku).utilization_pct = 0) ∧
    (sku.prepaidUnits.enabled ≠ 0 →
      (analyzeSku users sku).utilization_pct
        = (sku.consumedUnits : ℚ) / (sku.prepaidUnits.enabled : ℚ) * 100) := by
  constructor
  · intro h; simp [analyzeSku, h]
  · intro h; simp [analyzeSku, Nat.pos_of_ne_zero h]

theorem C2_witness :
    (analyzeSku [] skuZero).utilization_pct = 0 ∧
    (analyzeSku [] skuA).utilization_pct = 40 := by
  refine ⟨(C2_utilization [] skuZero).1 rfl, ?_⟩
  rw [(C2_utilization [] skuA).2 (by norm_num [skuA])]
  norm_num [skuA]

/-- C3: one row per input SKU, in input order. -/
theorem C3_rows (skus : List Sku) (users : List User) :
    (analyze_licenses skus users).length = skus.length ∧
    ∀ i (h1 : i < (analyze_licenses skus users).length) (h2 : i < skus.length),
      (analyze_licenses skus users).get ⟨i, h1⟩ = analyzeSku users (skus.get ⟨i, h2⟩) := by
  refine ⟨by simp [analyze_licenses], ?_⟩
  intro i h1 h2
  simp [analyze_licenses]

theorem C3_witness :
    (analyze_licenses [skuA, skuZero] [alice]).length = 2 ∧
    (analyze_licenses [skuA, skuZero] [alice]).get ⟨0, by simp [analyze_licenses]⟩
      = analyzeSku [alice] skuA := by
  refine ⟨(C3_rows [skuA, skuZero] [alice]).1, ?_⟩
  exact (C3_rows [skuA, skuZero] [alice]).2 0 (by simp [analyze_licenses]) (by simp)

/-- C4: overall utilization is sum-assigned over sum-total times 100, and a
ZeroDivisionError when the total is 0. -/
theorem C4_overall_utilization (license_data : List LicenseRow) :
    (total_licenses_sum license_data = 0 →
      overall_utilization license_data = .error "ZeroDivisionError") ∧
    (total_licenses_sum license_data ≠ 0 →
      overall_utilization license_data
        = .ok ((total_assigned_sum license_data : ℚ)
            / (total_licenses_sum license_data : ℚ) * 100)) := by
  constructor
  · intro h; simp [overall_utilization, pydiv, h, Except.map]
  · intro h
    simp [overall_utilization, pydiv, h, Except.map, Nat.cast_eq_zero]

theorem C4_witness :
    overall_utilization [] = .error "ZeroDivisionError" ∧
    overall_utilization (analyze_licenses [skuA] [alice]) = .ok 40 := by
  refine ⟨(C4_overall_utilization []).1 rfl, ?_⟩
  rw [(C4_overall_utilization (analyze_licenses [skuA] [alice])).2
    (by norm_num [total_licenses_sum, analyze_licenses, analyzeSku, skuA])]
  norm_num [total_licenses_sum, total_assigned_sum, analyze_licenses, analyzeSku, skuA]

/-- C5: the utilization cell fill is red below 50, yellow from 50 up to
below 80, green from 80; boundary values go to the higher band. -/
theorem C5_color_bands (v : ℚ) :
    (v < 50 → utilization_fill v = .red) ∧
    (50 ≤ v → v < 80 → utilization_fill v = .yellow) ∧
    (80 ≤ v → utilization_fill v = .green) := by
  refine ⟨fun h => by simp [utilization_fill, h], fun h1 h2 => ?_, fun h => ?_⟩
  · simp [utilization_fill, not_lt.mpr h1, h2]
  · have h50 : (50:ℚ) ≤ v := le_trans (by norm_num) h
    simp [utilization_fill, not_lt.mpr h, not_lt.mpr h50]

theorem C5_witness :
    utilization_fill 50 = .yellow ∧ utilization_fill 80 = .green ∧
    utilization_fill (499/10) = .red :=
  ⟨(C5_color_bands 50).2.1 (by norm_num) (by norm_num),
   (C5_color_bands 80).2.2 (by norm_num),
   (C5_color_bands (499/10)).1 (by norm_num)⟩

/-- C6: the low-utilization list holds exactly the rows with utilization
below 70 and positive total, sorted descending by available count. -/
theorem C6_low_util (license_data : List LicenseRow) :
    (∀ lic, lic ∈ low_util_sorted license_data ↔
      lic ∈ license_data ∧ lic.utilization_pct < 70 ∧ 0 < lic.total_licenses) ∧
    (low_util_sorted license_data).Pairwise (fun a b => b.available ≤ a.available) := by
  constructor
  · intro lic
    simp [low_util_sorted, low_util, List.mem_mergeSort, List.mem_filter, and_assoc]
  · have h := @List.sorted_mergeSort LicenseRow
      (fun a b : LicenseRow => decide (b.available ≤ a.available))
      (fun a b c hab hbc => by
        simp only [decide_eq_true_eq] at *
        exact le_trans hbc hab)
      (fun a b => by
        simp only [Bool.or_eq_true, decide_eq_true_eq]
        exact le_total b.available a.available)
      (low_util license_data)
    exact h.imp (fun hab => by simpa using hab)

theorem C6_witness :
    analyzeSku [alice, bob] skuA ∈ low_util_sorted (analyze_licenses [skuA] [alice, bob]) := by
  refine ((C6_low_util (analyze_licenses [skuA] [alice, bob])).1 _).mpr ?_
  refine ⟨by simp [analyze_licenses], ?_, by norm_num [analyzeSku, skuA]⟩
  norm_num [analyzeSku, skuA]

/-- C7: available = enabled − consumed, unclamped (negative when consumed
exceeds enabled). -/
theorem C7_available (users : List User) (sku : Sku) :
    (analyzeSku users sku).available
        = (sku.prepaidUnits.enabled : Int) - (sku.consumedUnits : Int) ∧
    (sku.prepaidUnits.enabled < sku.consumedUnits →
      (analyzeSku users sku).available < 0) := by
  refine ⟨rfl, fun h => ?_⟩
  simp only [analyzeSku]
  omega

theorem C7_witness :
    (analyzeSku [] skuOver).available = 5 - 9 ∧ (analyzeSku [] skuOver).available < 0 :=
  ⟨(C7_available [] skuOver).1, (C7_available [] skuOver).2 (by norm_num [skuOver])⟩

/-- C8: the friendly-name mapping sends each of the 17 table codes to its
table value and every other string to itself. -/
theorem C8_friendly_name_total :
    (∀ p ∈ license_names, get_friendly_license_name p.1 = p.2) ∧
    license_names.length = 17 ∧
    (∀ s : String, s ∉ license_names.map Prod.fst → get_friendly_license_name s = s) := by
  refine ⟨by decide, rfl, fun s hs => ?_⟩
  simp [get_friendly_license_name, lookup_eq_none_of_not_mem_keys license_names hs]

theorem C8_witness :
    get_friendly_license_name "ENTERPRISEPACK" = "Office 365 E3" ∧
    get_friendly_license_name "UNKNOWN_SKU_CODE" = "UNKNOWN_SKU_CODE" :=
  ⟨C8_friendly_name_total.1 ("ENTERPRISEPACK", "Office 365 E3") (by decide),
   C8_friendly_name_total.2.2 "UNKNOWN_SKU_CODE" (by decide)⟩

/-- C9: a user record with no assigned-licenses field is handled as if it
had an empty list, contributes no name to any row, and may be dropped
without changing the report. -/
theorem C9_missing_licenses_field (skus : List Sku) (pre post : List User)
    (u : User) (hu : u.assignedLicenses = none) :
    analyze_licenses skus (pre ++ u :: post)
        = analyze_licenses skus (pre ++ { u with assignedLicenses := some [] } :: post) ∧
    analyze_licenses skus (pre ++ u :: post) = analyze_licenses skus (pre ++ post) ∧
    ∀ sku ∈ skus, (∀ v ∈ pre ++ post, v.displayName ≠ u.displayName) →
      u.displayName ∉ (analyzeSku (pre ++ u :: post) sku).users := by
  have hfilter : ∀ sid : String, (pre ++ u :: post).filter (hasLicense sid)
      = pre.filter (hasLicense sid) ++ post.filter (hasLicense sid) := by
    intro sid
    have : hasLicense sid u = false := by simp [hasLicense, hu]
    simp [List.filter_append, List.filter_cons, this]
  have hfilter2 : ∀ sid : String,
      (pre ++ { u with assignedLicenses := some [] } :: post).filter (hasLicense sid)
      = pre.filter (hasLicense sid) ++ post.filter (hasLicense sid) := by
    intro sid
    have : hasLicense sid { u with assignedLicenses := some [] } = false := by
      simp [hasLicense]
    simp [List.filter_append, List.filter_cons, this]
  refine ⟨?_, ?_, ?_⟩
  · refine List.map_congr_left (fun sku _ => ?_)
    simp only [analyzeSku, usersWithLicense, hfilter, hfilter2]
  · refine List.map_congr_left (fun sku _ => ?_)
    simp only [analyzeSku, usersWithLicense, hfilter, List.filter_append]
  · intro sku _ hname hmem
    simp only [analyzeSku, usersWithLicense, List.mem_map, List.mem_filter] at hmem
    obtain ⟨v, ⟨hv, hlic⟩, hvn⟩ := hmem
    rcases List.mem_append.mp hv with hp | hc
    · exact hname v (List.mem_append.mpr (Or.inl hp)) hvn
    · rcases List.mem_cons.mp hc with rfl | hpost
      · simp [hasLicense, hu] at hlic
      · exact hname v (List.mem_append.mpr (Or.inr hpost)) hvn

theorem C9_witness :
    analyze_licenses [skuA] [alice, carol] = analyze_licenses [skuA] [alice] ∧
    "Carol" ∉ (analyzeSku [alice, carol] skuA).users := by
  have h := C9_missing_licenses_field [skuA] [alice] [] carol rfl
  exact ⟨h.2.1, h.2.2 skuA (by simp) (by simp [alice, carol])⟩

/-- C10 fails as stated: two distinct user records sharing the display name
`Alice` and both holding SKU `A` make the name appear twice in the row. -/
theorem C10_counterexample :
    ¬ ((analyzeSku [alice, alice2] skuA).users.count "Alice" ≤ 1) := by
  decide

/-- C10 (amended): when user display names are pairwise distinct, a name
appears at most once in a row's user list, even if that user's
assigned-license collection lists the SKU id multiple times. -/
theorem C10_name_at_most_once (users : List User) (sku : Sku)
    (h : (users.map User.displayName).Nodup) (n : String) :
    (analyzeSku users sku).users.count n ≤ 1 := by
  have hsub : ((users.filter (hasLicense sku.skuId)).map User.displayName).Sublist
      (users.map User.displayName) :=
    (List.filter_sublist users).map User.displayName
  have hnd : ((users.filter (hasLicense sku.skuId)).map User.displayName).Nodup :=
    List.Nodup.sublist hsub h
  exact List.nodup_iff_count_le_one.mp hnd n

theorem C10_witness :
    (analyzeSku [aliceDup] skuA).users.count "Alice" ≤ 1 :=
  C10_name_at_most_once [aliceDup] skuA (by decide) "Alice"

end LicenseReport
